import Mathlib

/-!
Verification of the ash_typst native core (src/native/typst_nif/src/lib.rs).

Shallow embedding of the incremental compilation world: the fingerprinted
file cache (`SlotCell`), the virtual-file overlay, the compilation world and
context with their compile/render/export operations, the diagnostic mapper,
the page-range selector, and the `today` clock query.

Conventions of the embedding:
* Rust `Vec<u8>` buffers are `List Nat` (one entry per byte).
* Rust strings are Lean `String`, manipulated through character-list helpers
  (`strTrim`, `strSplit`, ...) that mirror the Rust std functions used by the
  source and reduce in the kernel.
* External collaborators (disk/package I/O, `typst::utils::hash128`, the
  compiler, the SVG renderer, the PDF serializer, `Source::lines`) are
  function-valued fields or explicit function parameters.
* Interior mutability (the `Mutex`-guarded slot map, the `OnceLock` clock)
  is modelled with explicit state where a claim depends on it; lookups that
  the source performs through `&self` are modelled by their returned value.
-/

/-- A byte buffer, one natural number (0..255) per byte, modelling Rust
    `Vec<u8>`. -/
abbrev Bytes := List Nat

/-- File access errors, modelling the variants of `typst::diag::FileError`
    that the source constructs or propagates. -/
inductive FileError where
  | notFound
  | accessDenied
  | isDirectory
  | invalidUtf8
  | packageFailed
  | other
  deriving DecidableEq, Repr

/-- A file identity. `main` is the distinguished `MARKUP_ID` pseudo-file
    (`FileId::new_fake(VirtualPath::new("MARKUP.typ"))`); `file pkg path`
    is an ordinary identity with an optional package spec and a virtual
    path. Paths are modelled as UTF-8 strings, so
    `vpath().as_rootless_path().to_str()` always succeeds. -/
inductive FileId where
  | main
  | file (pkg : Option String) (path : String)
  deriving DecidableEq, Repr

/-- The rootless path of an identity, modelling
    `id.vpath().as_rootless_path()`. The `MARKUP_ID` virtual path is
    "MARKUP.typ". -/
def FileId.rootlessPath : FileId → String
  | .main => "MARKUP.typ"
  | .file _ p => p

/-- A parsed source file, modelling `typst::syntax::Source` by its identity
    and text (the only parts the claims observe). -/
structure Source where
  id : FileId
  text : String
  deriving DecidableEq, Repr

/-! ## Character-list string helpers

The source uses Rust `str::trim`, `str::split`, `str::contains`,
`str::splitn` and `usize::from_str`. Lean's built-in `String` functions do
not reduce in the kernel, so the embedding defines structural equivalents
over `String.data`. -/

/-- Split a character list at every occurrence of `sep`, modelling Rust
    `str::split(sep)` (the separator is consumed; an empty input yields one
    empty piece). -/
def splitOnChar (sep : Char) : List Char → List (List Char)
  | [] => [[]]
  | c :: rest =>
    let r := splitOnChar sep rest
    if c = sep then [] :: r
    else
      match r with
      | [] => [[c]]
      | g :: gs => (c :: g) :: gs

/-- Drop whitespace from both ends, modelling Rust `str::trim` (the source
    only ever trims ASCII whitespace around page tokens). -/
def trimChars (cs : List Char) : List Char :=
  ((cs.dropWhile Char.isWhitespace).reverse.dropWhile Char.isWhitespace).reverse

/-- Rust `str::trim` on the embedded strings. -/
def strTrim (s : String) : String := ⟨trimChars s.data⟩

/-- Rust `str::contains(char)` on the embedded strings. -/
def strContainsChar (s : String) (c : Char) : Bool := s.data.contains c

/-- Rust `str::split(char)` on the embedded strings. -/
def strSplit (s : String) (sep : Char) : List String :=
  (splitOnChar sep s.data).map fun cs => ⟨cs⟩

/-! ## UTF-8 encoding and decoding

Models Rust `String::into_bytes` and `std::str::from_utf8` (including the
rejection of overlong forms, surrogates and code points above 0x10FFFF). -/

/-- UTF-8 encoding of one scalar value. -/
def utf8EncodeChar (c : Char) : List Nat :=
  let n := c.toNat
  if n < 0x80 then [n]
  else if n < 0x800 then [0xC0 + n / 64, 0x80 + n % 64]
  else if n < 0x10000 then
    [0xE0 + n / 4096, 0x80 + n / 64 % 64, 0x80 + n % 64]
  else
    [0xF0 + n / 0x40000, 0x80 + n / 4096 % 64, 0x80 + n / 64 % 64, 0x80 + n % 64]

/-- UTF-8 encoding of a string, modelling Rust `String::into_bytes`. -/
def utf8Encode (s : String) : Bytes :=
  (s.data.map utf8EncodeChar).flatten

/-- UTF-8 decoding, modelling `std::str::from_utf8`: `none` on any invalid,
    overlong, surrogate or out-of-range sequence. -/
def decodeUtf8Chars : Bytes → Option (List Char)
  | [] => some []
  | b0 :: rest =>
    if b0 < 0x80 then
      (decodeUtf8Chars rest).map fun cs => Char.ofNat b0 :: cs
    else if b0 < 0xC2 then none
    else if b0 < 0xE0 then
      match rest with
      | b1 :: rest2 =>
        if 0x80 ≤ b1 ∧ b1 < 0xC0 then
          (decodeUtf8Chars rest2).map fun cs =>
            Char.ofNat ((b0 - 0xC0) * 64 + (b1 - 0x80)) :: cs
        else none
      | [] => none
    else if b0 < 0xF0 then
      match rest with
      | b1 :: b2 :: rest3 =>
        let lo1 := if b0 = 0xE0 then 0xA0 else 0x80
        let hi1 := if b0 = 0xED then 0xA0 else 0xC0
        if lo1 ≤ b1 ∧ b1 < hi1 ∧ 0x80 ≤ b2 ∧ b2 < 0xC0 then
          (decodeUtf8Chars rest3).map fun cs =>
            Char.ofNat ((b0 - 0xE0) * 4096 + (b1 - 0x80) * 64 + (b2 - 0x80)) :: cs
        else none
      | _ => none
    else if b0 < 0xF5 then
      match rest with
      | b1 :: b2 :: b3 :: rest4 =>
        let lo1 := if b0 = 0xF0 then 0x90 else 0x80
        let hi1 := if b0 = 0xF4 then 0x90 else 0xC0
        if lo1 ≤ b1 ∧ b1 < hi1 ∧ 0x80 ≤ b2 ∧ b2 < 0xC0 ∧ 0x80 ≤ b3 ∧ b3 < 0xC0 then
          (decodeUtf8Chars rest4).map fun cs =>
            Char.ofNat
              ((b0 - 0xF0) * 0x40000 + (b1 - 0x80) * 4096 + (b2 - 0x80) * 64
                + (b3 - 0x80)) :: cs
        else none
      | _ => none
    else none

/-- Strip an optional leading UTF-8 byte-order mark, modelling
    `buf.strip_prefix(b"\xef\xbb\xbf").unwrap_or(buf)` in `decode_utf8`. -/
def stripBom : Bytes → Bytes
  | 239 :: 187 :: 191 :: rest => rest
  | b => b

/-- `decode_utf8` from the source: strip an optional BOM, then decode
    UTF-8, failing with the decode error on invalid content. -/
def decode_utf8 (buf : Bytes) : Except FileError String :=
  match decodeUtf8Chars (stripBom buf) with
  | some cs => .ok ⟨cs⟩
  | none => .error FileError.invalidUtf8

/-! ## The fingerprinted cache cell (`SlotCell`) -/

/-- One cache cell of the file cache, modelling `SlotCell<T>`: the last
    stored result (success or failure), the fingerprint of the last load,
    and the accessed-this-generation flag. -/
structure SlotCell (T : Type) where
  data : Option (Except FileError T)
  fingerprint : Nat
  accessed : Bool

/-- `SlotCell::new`. -/
def SlotCell.new {T : Type} : SlotCell T := ⟨none, 0, false⟩

/-- `SlotCell::reset`: mark the cell unaccessed; data and fingerprint are
    untouched. -/
def SlotCell.reset {T : Type} (c : SlotCell T) : SlotCell T :=
  { c with accessed := false }

/-- The observable outcome of one `get_or_init` call: the returned value,
    the updated cell, and whether the `load` and transform closures were
    invoked. -/
structure GetOrInitResult (T : Type) where
  result : Except FileError T
  cell : SlotCell T
  loaded : Bool
  transformed : Bool

/-- The part of `SlotCell::get_or_init` after the accessed-this-generation
    short circuit: perform the load, fingerprint it (`hash` models
    `typst::utils::hash128`, applied to the whole `FileResult`), short
    circuit when the fingerprint is unchanged and a result is stored,
    otherwise run the transform `f` on the loaded bytes and the previous
    successfully-parsed value and store its result. The transform runs only
    when the load succeeded (`result.and_then`). -/
def SlotCell.loadPath {T : Type} (cell : SlotCell T)
    (hash : Except FileError Bytes → Nat)
    (load : Unit → Except FileError Bytes)
    (f : Bytes → Option T → Except FileError T) : GetOrInitResult T :=
  let result := load ()
  let fp := hash result
  match cell.data with
  | some d =>
    if cell.fingerprint = fp then ⟨d, ⟨some d, fp, true⟩, true, false⟩
    else
      let value := result.bind fun data => f data d.toOption
      ⟨value, ⟨some value, fp, true⟩, true, result.isOk⟩
  | none =>
    let value := result.bind fun data => f data none
    ⟨value, ⟨some value, fp, true⟩, true, result.isOk⟩

/-- `SlotCell::get_or_init`: if the cell was already accessed this
    generation and holds a result, return it with no I/O; otherwise fall
    through to the load-and-fingerprint path. -/
def SlotCell.get_or_init {T : Type} (cell : SlotCell T)
    (hash : Except FileError Bytes → Nat)
    (load : Unit → Except FileError Bytes)
    (f : Bytes → Option T → Except FileError T) : GetOrInitResult T :=
  match cell.accessed, cell.data with
  | true, some d => ⟨d, { cell with accessed := true }, false, false⟩
  | _, _ => cell.loadPath hash load f

/-! ## Association-list maps

`HashMap<K, V>` instances in the source (`slots`, `virtual_files`,
`inputs`) are modelled as association lists with at most one binding per
key; `assocInsert` replaces an existing binding like `HashMap::insert`. -/

/-- Lookup in an association map, modelling `HashMap::get`. -/
def assocLookup {α β : Type} [DecidableEq α] : List (α × β) → α → Option β
  | [], _ => none
  | (k, v) :: rest, key => if k = key then some v else assocLookup rest key

/-- Insert or replace a binding, modelling `HashMap::insert`. -/
def assocInsert {α β : Type} [DecidableEq α] :
    List (α × β) → α → β → List (α × β)
  | [], key, val => [(key, val)]
  | (k, v) :: rest, key, val =>
    if k = key then (key, val) :: rest else (k, v) :: assocInsert rest key val

/-- Remove a binding, modelling `HashMap::remove`. -/
def assocRemove {α β : Type} [DecidableEq α] : List (α × β) → α → List (α × β)
  | [], _ => []
  | (k, v) :: rest, key =>
    if k = key then rest else (k, v) :: assocRemove rest key

/-- Append bytes to an entry, creating it empty first when absent,
    modelling `map.entry(path).or_default().extend_from_slice(chunk)`. -/
def assocAppend : List (String × Bytes) → String → Bytes → List (String × Bytes)
  | [], path, chunk => [(path, chunk)]
  | (k, v) :: rest, path, chunk =>
    if k = path then (k, v ++ chunk) :: rest
    else (k, v) :: assocAppend rest path chunk

/-! ## File slots -/

/-- `FileSlot`: the two cache cells (parsed source and raw bytes) of one
    file identity. -/
structure FileSlot where
  id : FileId
  source : SlotCell Source
  file : SlotCell Bytes

/-- `FileSlot::new`. -/
def FileSlot.new (id : FileId) : FileSlot := ⟨id, SlotCell.new, SlotCell.new⟩

/-- `FileSlot::reset`: reset both cells. -/
def FileSlot.reset (s : FileSlot) : FileSlot :=
  { s with source := s.source.reset, file := s.file.reset }

/-- The transform closure of `FileSlot::source`: decode the bytes as UTF-8
    and either splice the new text into the previous parsed source
    (`prev.replace(text)`, which keeps the identity) or parse it fresh
    (`Source::new(id, text)`). -/
def sourceTransform (id : FileId) (data : Bytes) (prev : Option Source) :
    Except FileError Source :=
  (decode_utf8 data).map fun text =>
    match prev with
    | some prevSrc => { prevSrc with text := text }
    | none => ⟨id, text⟩

/-- The transform closure of `FileSlot::file`: wrap the raw bytes. -/
def fileTransform (data : Bytes) (_ : Option Bytes) : Except FileError Bytes :=
  .ok data

/-! ## Library configuration -/

/-- The library configuration, modelling `typst::Library` by the parts the
    source sets: the `inputs` dictionary and the HTML feature flag. The
    dictionary is modelled by the binding list it is built from. -/
structure Library where
  inputs : List (String × String)
  htmlFeature : Bool
  deriving DecidableEq, Repr

/-- `Library::builder().with_inputs(dict).with_features([Feature::Html]).build()`. -/
def buildLibrary (dict : List (String × String)) : Library := ⟨dict, true⟩

/-! ## The compilation world -/

/-- `SystemWorld`. Stateful fields follow the source; the function-valued
    fields model the external collaborators:
    * `disk` models `read` (the disk/package I/O behind the file cache),
    * `hash` models `typst::utils::hash128` applied to a `FileResult`,
    * `byteToLine` / `byteToCol` model `Source::lines().byte_to_line` and
      `byte_to_column` (0-based, `none` when the offset is out of bounds),
    * `now` is the value of the per-compile UTC clock snapshot in epoch
      seconds, and `localOffset` the local timezone offset in seconds used
      by the `offset = None` branch of `today`. -/
structure SystemWorld where
  root : String
  markup : String
  library : Library
  slots : List (FileId × FileSlot)
  virtual_files : List (String × Bytes)
  inputs : List (String × String)
  now : Int
  localOffset : Int
  disk : FileId → Except FileError Bytes
  hash : Except FileError Bytes → Nat
  byteToLine : String → Nat → Option Nat
  byteToCol : String → Nat → Option Nat

/-- `SystemWorld::reset`: reset every file slot. (The source also clears
    the `OnceLock` clock so the next compile captures a fresh snapshot; the
    capture itself is external state, represented here by `now`.) -/
def SystemWorld.reset (w : SystemWorld) : SystemWorld :=
  { w with slots := w.slots.map fun s => (s.1, s.2.reset) }

/-- `SystemWorld::rebuild_library`: rebuild the library configuration from
    the full current input-binding set. -/
def SystemWorld.rebuild_library (w : SystemWorld) : SystemWorld :=
  { w with library := buildLibrary w.inputs }

/-- The slot targeted by `SystemWorld::slot`: the existing entry, or a
    fresh one (`or_insert_with(FileSlot::new)`). -/
def SystemWorld.slotGet (w : SystemWorld) (id : FileId) : FileSlot :=
  (assocLookup w.slots id).getD (FileSlot.new id)

/-- The value produced by the cache/disk path of `World::source` for `id`:
    `get_or_init` on the slot's source cell with the disk read as load and
    decode-and-parse as transform. (The write-back of the updated cell into
    the `Mutex`-guarded map is interior mutability; the claims about
    `source` observe the returned value.) -/
def SystemWorld.slotSource (w : SystemWorld) (id : FileId) :
    Except FileError Source :=
  ((w.slotGet id).source.get_or_init w.hash (fun _ => w.disk id)
    (sourceTransform id)).result

/-- The value produced by the cache/disk path of `World::file` for `id`. -/
def SystemWorld.slotFile (w : SystemWorld) (id : FileId) :
    Except FileError Bytes :=
  ((w.slotGet id).file.get_or_init w.hash (fun _ => w.disk id)
    fileTransform).result

/-- `World::source` for `SystemWorld`: the main pseudo-file returns the
    in-memory markup; otherwise a virtual-overlay entry at the identity's
    rootless path is decoded and returned; otherwise the cache/disk path is
    used. -/
def SystemWorld.source (w : SystemWorld) (id : FileId) :
    Except FileError Source :=
  if id = FileId.main then .ok ⟨id, w.markup⟩
  else
    match assocLookup w.virtual_files id.rootlessPath with
    | some content => (decode_utf8 content).map fun text => ⟨id, text⟩
    | none => w.slotSource id

/-- `World::file` for `SystemWorld`: a virtual-overlay entry at the
    identity's rootless path is returned as-is; otherwise the cache/disk
    path is used. There is no main pseudo-file branch. -/
def SystemWorld.file (w : SystemWorld) (id : FileId) : Except FileError Bytes :=
  match assocLookup w.virtual_files id.rootlessPath with
  | some content => .ok content
  | none => w.slotFile id

/-! ## Calendar dates and `today`

`chrono` date arithmetic is external; `civilFromDays` models its civil-date
computation (the standard days-to-civil algorithm), and `datetimeFromYmd`
models `typst::foundations::Datetime::from_ymd`, which validates the
calendar date. -/

/-- The calendar date returned by `Datetime::from_ymd`. -/
structure Datetime where
  year : Int
  month : Nat
  day : Nat
  deriving DecidableEq, Repr

/-- Gregorian leap year, as the `time` crate computes it. -/
def isLeap (y : Int) : Bool :=
  y % 4 = 0 ∧ (y % 100 ≠ 0 ∨ y % 400 = 0)

/-- Days in a month of a given year. -/
def daysInMonth (y : Int) (m : Nat) : Nat :=
  if m = 2 then (if isLeap y then 29 else 28)
  else if m = 4 ∨ m = 6 ∨ m = 9 ∨ m = 11 then 30
  else 31

/-- `Datetime::from_ymd`: `some` exactly on valid calendar dates. -/
def datetimeFromYmd (y : Int) (m d : Nat) : Option Datetime :=
  if 1 ≤ m ∧ m ≤ 12 ∧ 1 ≤ d ∧ d ≤ daysInMonth y m then some ⟨y, m, d⟩
  else none

/-- Civil date (year, month, day) of a day number counted from the epoch
    1970-01-01, modelling the computation `chrono` performs for
    `Datelike::year/month/day`. -/
def civilFromDays (z0 : Int) : Int × Int × Int :=
  let z := z0 + 719468
  let era := Int.fdiv z 146097
  let doe := z - era * 146097
  let yoe := Int.fdiv (doe - Int.fdiv doe 1460 + Int.fdiv doe 36524
    - Int.fdiv doe 146096) 365
  let y := yoe + era * 400
  let doy := doe - (365 * yoe + Int.fdiv yoe 4 - Int.fdiv yoe 100)
  let mp := Int.fdiv (5 * doy + 2) 153
  let d := doy - Int.fdiv (153 * mp + 2) 5 + 1
  let m := mp + (if mp < 10 then 3 else -9)
  (y + (if m ≤ 2 then 1 else 0), m, d)

/-- The calendar date of an instant given in epoch seconds: take the civil
    date of its day number, pass month/day through the `u8` conversions of
    the source (`try_into().ok()?`), and validate through
    `Datetime::from_ymd`. -/
def calendarDate (t : Int) : Option Datetime :=
  let c := civilFromDays (Int.fdiv t 86400)
  if 0 ≤ c.2.1 ∧ c.2.1 ≤ 255 ∧ 0 ≤ c.2.2 ∧ c.2.2 ≤ 255 then
    datetimeFromYmd c.1 c.2.1.toNat c.2.2.toNat
  else none

/-- `World::today` for `SystemWorld`: `offset = none` uses the local
    timezone of the clock snapshot; `offset = some hours` converts the
    hours to an `i32` (`i32::try_from(hours).ok()?`), multiplies by 3600
    with `checked_mul`, builds a fixed offset with `FixedOffset::east_opt`
    (valid strictly between -86400 and 86400 seconds), and takes the
    calendar date of the shifted snapshot. Every failure returns `none`. -/
def SystemWorld.today (w : SystemWorld) (offset : Option Int) : Option Datetime :=
  match offset with
  | none => calendarDate (w.now + w.localOffset)
  | some hours =>
    if hours < -(2 ^ 31) ∨ 2 ^ 31 - 1 < hours then none
    else
      let seconds := hours * 3600
      if seconds < -(2 ^ 31) ∨ 2 ^ 31 - 1 < seconds then none
      else if seconds ≤ -86400 ∨ 86400 ≤ seconds then none
      else calendarDate (w.now + seconds)

/-! ## NIF-facing diagnostic records -/

/-- Diagnostic severity on the NIF side. -/
inductive SeverityNif where
  | Error
  | Warning
  deriving DecidableEq, Repr

/-- `SpanNif`: a byte range with optionally resolved 1-based position.
    (`stop` is the source's `end` field; `end` is reserved in Lean.) -/
structure SpanNif where
  start : Nat
  stop : Nat
  line : Option Nat
  column : Option Nat
  deriving DecidableEq, Repr

/-- `TraceItemNif`. -/
structure TraceItemNif where
  span : Option SpanNif
  message : String
  deriving DecidableEq, Repr

/-- `DiagnosticNif`. -/
structure DiagnosticNif where
  severity : SeverityNif
  message : String
  span : Option SpanNif
  trace : List TraceItemNif
  hints : List String
  deriving DecidableEq, Repr

/-- `CompileResultNif`. -/
structure CompileResultNif where
  page_count : Nat
  warnings : List DiagnosticNif
  deriving DecidableEq, Repr

/-- `CompileErrorNif`. -/
structure CompileErrorNif where
  diagnostics : List DiagnosticNif
  deriving DecidableEq, Repr

/-! ## Compiler-side diagnostics -/

/-- `typst::diag::Severity`. -/
inductive Severity where
  | error
  | warning
  deriving DecidableEq, Repr

/-- `From<Severity> for SeverityNif`. -/
def severityToNif : Severity → SeverityNif
  | .error => SeverityNif.Error
  | .warning => SeverityNif.Warning

/-- A compiler span, modelling `typst::syntax::Span` by what the mapper
    reads from it: `span.id()` (absent for detached spans) and
    `span.range()` (the byte range, absent when the span carries none). -/
structure Span where
  id : Option FileId
  range : Option (Nat × Nat)
  deriving DecidableEq, Repr

/-- One entry of a diagnostic's trace (`Spanned<Tracepoint>`; `message`
    is the rendering of `item.v`). -/
structure TraceItem where
  span : Span
  message : String
  deriving DecidableEq, Repr

/-- `typst::diag::SourceDiagnostic`, by the fields the source reads. -/
structure SourceDiagnostic where
  severity : Severity
  message : String
  span : Span
  trace : List TraceItem
  hints : List String
  deriving DecidableEq, Repr

/-! ## Diagnostic mapping -/

/-- `resolve_line_column`: resolve the owning file of the span through the
    world and recompute a 1-based line/column from the byte offset inside
    that source's text; `(none, none)` when the span has no file or the
    file does not resolve. -/
def resolve_line_column (span : Span) (byte_offset : Nat) (world : SystemWorld) :
    Option Nat × Option Nat :=
  match (span.id.bind fun id => (world.source id).toOption) with
  | some source =>
    ((world.byteToLine source.text byte_offset).map fun l => l + 1,
     (world.byteToCol source.text byte_offset).map fun c => c + 1)
  | none => (none, none)

/-- `span_to_nif`: `none` when the span has no byte range; otherwise the
    range with the position resolved at the range start. -/
def span_to_nif (span : Span) (world : SystemWorld) : Option SpanNif :=
  span.range.map fun r =>
    let lc := resolve_line_column span r.1 world
    ⟨r.1, r.2, lc.1, lc.2⟩

/-- `span_to_nif_simple`: the position-less variant used after the
    per-compile world context is gone; byte ranges survive, line/column
    are never resolved. -/
def span_to_nif_simple (span : Span) : Option SpanNif :=
  span.range.map fun r => ⟨r.1, r.2, none, none⟩

/-- `diagnostic_to_nif`. -/
def diagnostic_to_nif (d : SourceDiagnostic) (world : SystemWorld) : DiagnosticNif :=
  { severity := severityToNif d.severity
    message := d.message
    span := span_to_nif d.span world
    trace := d.trace.map fun item => ⟨span_to_nif item.span world, item.message⟩
    hints := d.hints }

/-- `diagnostics_to_vec`: map every diagnostic, in order. -/
def diagnostics_to_vec (diagnostics : List SourceDiagnostic) (world : SystemWorld) :
    List DiagnosticNif :=
  diagnostics.map fun d => diagnostic_to_nif d world

/-- `diagnostics_to_vec_simple`: the position-less variant, in order. -/
def diagnostics_to_vec_simple (diagnostics : List SourceDiagnostic) :
    List DiagnosticNif :=
  diagnostics.map fun d =>
    { severity := severityToNif d.severity
      message := d.message
      span := span_to_nif_simple d.span
      trace := d.trace.map fun item => ⟨span_to_nif_simple item.span, item.message⟩
      hints := d.hints }

/-- `simple_error`: a single Error-severity diagnostic with no span, no
    trace and no hints — the shape of every precondition failure. -/
def simple_error (message : String) : CompileErrorNif :=
  ⟨[⟨SeverityNif.Error, message, none, [], []⟩]⟩

/-! ## The page-range selector -/

/-- Rust `usize::from_str`: an optional leading '+', then one or more
    ASCII digits, failing on anything else and on overflow past
    `usize::MAX` (64-bit). -/
def parseUsize (s : String) : Option Nat :=
  let cs := match s.data with
    | '+' :: rest => rest
    | cs => cs
  if cs.isEmpty then none
  else if cs.all fun c => c.isDigit then
    let v := cs.foldl (fun a c => a * 10 + (c.toNat - 48)) 0
    if v < 2 ^ 64 then some v else none
  else none

/-- Join pieces back with '-' separators (used to model
    `splitn(2, '-')`: the second piece is the undivided remainder). -/
def dashJoin : List String → String
  | [] => ""
  | [a] => a
  | a :: rest => a ++ "-" ++ dashJoin rest

/-- Rust `part.splitn(2, '-')` as the pair (before the first '-', the
    rest). -/
def splitFirstDash (s : String) : String × String :=
  match strSplit s '-' with
  | [] => (s, "")
  | [a] => (a, "")
  | a :: rest => (a, dashJoin rest)

/-- The body of the `parse_page_ranges` loop for one comma token: trim it;
    a token containing '-' must be `N-M` with both numbers parsing and
    `1 ≤ N`, `1 ≤ M`, `N ≤ total`, `M ≤ total`, `N ≤ M`; a bare token must
    be a number `N` with `1 ≤ N ≤ total`. Failures name the token (or, for
    a bare out-of-bounds number, the parsed number). -/
def parseToken (part0 : String) (total : Nat) : Except String (Nat × Nat) :=
  let part := strTrim part0
  if strContainsChar part '-' then
    let pieces := splitFirstDash part
    match parseUsize (strTrim pieces.1) with
    | none => .error ("Invalid page number in range: " ++ part)
    | some start =>
      match parseUsize (strTrim pieces.2) with
      | none => .error ("Invalid page number in range: " ++ part)
      | some stop =>
        if start < 1 ∨ stop < 1 ∨ start > total ∨ stop > total ∨ start > stop then
          .error ("Page range out of bounds: " ++ part)
        else .ok (start, stop)
  else
    match parseUsize part with
    | none => .error ("Invalid page number: " ++ part)
    | some page =>
      if page < 1 ∨ page > total then
        .error ("Page number out of bounds: " ++ Nat.repr page)
      else .ok (page, page)

/-- The `parse_page_ranges` loop over the comma tokens: process tokens in
    input order, pushing each accepted range and returning the first error
    immediately. -/
def parsePartsLoop (total : Nat) : List String → Except String (List (Nat × Nat))
  | [] => .ok []
  | p :: rest =>
    match parseToken p total with
    | .error e => .error e
    | .ok r =>
      match parsePartsLoop total rest with
      | .error e => .error e
      | .ok rs => .ok (r :: rs)

/-- `parse_page_ranges`: split the selector on commas and run the loop.
    An accepted range `(N, M)` stands for the source's
    `NonZeroUsize::new(N)..=NonZeroUsize::new(M)` (both are `Some` because
    validation guarantees `N, M ≥ 1`). -/
def parse_page_ranges (pages : String) (total : Nat) :
    Except String (List (Nat × Nat)) :=
  parsePartsLoop total (strSplit pages ',')


/-! ## The compilation context and its NIF operations -/

/-- A compiled document, modelling `PagedDocument` by its page list; a page
    is opaque beyond identity (the session layer only counts, indexes and
    hands pages to the external renderer). -/
structure PagedDocument where
  pages : List Nat
  deriving DecidableEq, Repr

/-- `TypstContext`: one world plus at most one compiled document. -/
structure TypstContext where
  world : SystemWorld
  document : Option PagedDocument

/-- `context_set_markup`: replace the main markup, reset the world, clear
    the stored document. -/
def context_set_markup (ctx : TypstContext) (markup : String) : TypstContext :=
  { world := SystemWorld.reset { ctx.world with markup := markup }
    document := none }

/-- `context_set_virtual_file`: store the UTF-8 bytes of `content` at
    `path` (`content.into_bytes()`), replacing any previous entry, and
    clear the stored document. -/
def context_set_virtual_file (ctx : TypstContext) (path content : String) :
    TypstContext :=
  { world := { ctx.world with
      virtual_files := assocInsert ctx.world.virtual_files path (utf8Encode content) }
    document := none }

/-- `context_append_virtual_file`: append the UTF-8 bytes of `chunk` to the
    entry at `path` (creating it when absent). The stored document is left
    untouched — this NIF does not clear it. -/
def context_append_virtual_file (ctx : TypstContext) (path chunk : String) :
    TypstContext :=
  { ctx with world := { ctx.world with
      virtual_files := assocAppend ctx.world.virtual_files path (utf8Encode chunk) } }

/-- `context_clear_virtual_file`: remove the entry at `path` and clear the
    stored document. -/
def context_clear_virtual_file (ctx : TypstContext) (path : String) :
    TypstContext :=
  { world := { ctx.world with
      virtual_files := assocRemove ctx.world.virtual_files path }
    document := none }

/-- `context_set_input`: insert one binding and rebuild the library
    configuration. The stored document is left untouched. -/
def context_set_input (ctx : TypstContext) (key value : String) : TypstContext :=
  let w := { ctx.world with inputs := assocInsert ctx.world.inputs key value }
  { ctx with world := w.rebuild_library }

/-- `context_set_inputs`: replace the whole binding set and rebuild the
    library configuration. The stored document is left untouched. -/
def context_set_inputs (ctx : TypstContext) (inputs : List (String × String)) :
    TypstContext :=
  let w := { ctx.world with inputs := inputs }
  { ctx with world := w.rebuild_library }

/-- The outcome of `typst::compile::<PagedDocument>`: the output and the
    accumulated warnings. -/
structure CompilerOutput where
  output : Except (List SourceDiagnostic) PagedDocument
  warnings : List SourceDiagnostic

/-- `context_compile`, parameterized by the external compiler: reset the
    world, run the compiler; on success store the document and return the
    page count with the mapped warnings; on failure clear the document and
    return the mapped diagnostics. -/
def context_compile (compiler : SystemWorld → CompilerOutput)
    (ctx : TypstContext) :
    Except CompileErrorNif CompileResultNif × TypstContext :=
  let world := ctx.world.reset
  let result := compiler world
  match result.output with
  | .ok document =>
    (.ok ⟨document.pages.length, diagnostics_to_vec result.warnings world⟩,
     ⟨world, some document⟩)
  | .error errors =>
    (.error ⟨diagnostics_to_vec errors world⟩, ⟨world, none⟩)

/-- `context_render_svg`, parameterized by the external renderer
    `typst_svg::svg`: requires a stored document, bounds-checks the page
    index, and renders exactly the requested page. -/
def context_render_svg (svg : Nat → String) (ctx : TypstContext) (page : Nat) :
    Except CompileErrorNif String :=
  match ctx.document with
  | none => .error (simple_error "No compiled document. Call compile() first.")
  | some document =>
    if h : document.pages.length ≤ page then
      .error (simple_error ("Page index " ++ Nat.repr page
        ++ " out of bounds (document has " ++ Nat.repr document.pages.length
        ++ " pages)"))
    else .ok (svg (document.pages.get ⟨page, by omega⟩))

/-- The PDF standards selection; `PdfStandards::new` is external, so the
    validated set is modelled by the requested list. -/
inductive PdfStandardNif where
  | pdf17
  | pdfA2b
  | pdfA3b
  deriving DecidableEq, Repr

/-- `PdfOptionsNif`. -/
structure PdfOptionsNif where
  pages : Option String
  pdf_standards : List PdfStandardNif
  document_id : Option String
  deriving DecidableEq, Repr

/-- `typst_pdf::PdfOptions`, by the fields the source sets: the identifier
    override (`Smart::Auto` is `none`), the validated standards set, and
    the optional page-range filter. -/
structure PdfOptions where
  ident : Option String
  standards : List PdfStandardNif
  page_ranges : Option (List (Nat × Nat))
  deriving DecidableEq, Repr

/-- `PdfOptionsNif::to_pdf_options`, parameterized by the external
    `PdfStandards::new` (`mkStandards`): set the identifier override, and
    when the requested standards list is non-empty validate it, prefixing
    failures with "Invalid PDF standards: ". -/
def to_pdf_options
    (mkStandards : List PdfStandardNif → Except String (List PdfStandardNif))
    (opts : PdfOptionsNif) : Except String PdfOptions :=
  let base : PdfOptions := ⟨opts.document_id, [], none⟩
  if opts.pdf_standards.isEmpty then .ok base
  else
    match mkStandards opts.pdf_standards with
    | .ok s => .ok { base with standards := s }
    | .error e => .error ("Invalid PDF standards: " ++ e)

/-- `context_export_pdf`, parameterized by the external serializer
    `typst_pdf::pdf` and `PdfStandards::new`: requires a stored document;
    validates options, parses the page selector against the document's
    page count, and maps serialization failures through the position-less
    diagnostic variant. -/
def context_export_pdf
    (serialize : PagedDocument → PdfOptions → Except (List SourceDiagnostic) Bytes)
    (mkStandards : List PdfStandardNif → Except String (List PdfStandardNif))
    (ctx : TypstContext) (opts : PdfOptionsNif) : Except CompileErrorNif Bytes :=
  match ctx.document with
  | none => .error (simple_error "No compiled document. Call compile() first.")
  | some document =>
    match to_pdf_options mkStandards opts with
    | .error e => .error (simple_error e)
    | .ok pdf_opts0 =>
      let ranged : Except CompileErrorNif PdfOptions :=
        match opts.pages with
        | none => .ok pdf_opts0
        | some pages_str =>
          match parse_page_ranges pages_str document.pages.length with
          | .ok rs => .ok { pdf_opts0 with page_ranges := some rs }
          | .error e => .error (simple_error e)
      match ranged with
      | .error e => .error e
      | .ok pdf_opts =>
        match serialize document pdf_opts with
        | .ok bytes => .ok bytes
        | .error errs => .error ⟨diagnostics_to_vec_simple errs⟩

/-! ## Cache-cell lemmas shared by the claims -/

/-- On a cell not yet accessed this generation, `get_or_init` takes the
    load-and-fingerprint path. -/
theorem SlotCell.get_or_init_not_accessed {T : Type} (cell : SlotCell T)
    (hash : Except FileError Bytes → Nat) (load : Unit → Except FileError Bytes)
    (f : Bytes → Option T → Except FileError T) (h : cell.accessed = false) :
    cell.get_or_init hash load f = cell.loadPath hash load f := by
  obtain ⟨dat, fp, acc⟩ := cell
  simp only at h
  subst h
  cases dat <;> rfl

/-- On a cell already accessed this generation with a stored result,
    `get_or_init` returns it with no load and no transform. -/
theorem SlotCell.get_or_init_accessed {T : Type} (cell : SlotCell T)
    (hash : Except FileError Bytes → Nat) (load : Unit → Except FileError Bytes)
    (f : Bytes → Option T → Except FileError T) (d : Except FileError T)
    (ha : cell.accessed = true) (hd : cell.data = some d) :
    cell.get_or_init hash load f = ⟨d, { cell with accessed := true }, false, false⟩ := by
  obtain ⟨dat, fp, acc⟩ := cell
  simp only at ha hd
  subst ha
  subst hd
  rfl

/-- After any `get_or_init`, the cell is marked accessed and holds a
    stored result. -/
theorem SlotCell.get_or_init_post {T : Type} (cell : SlotCell T)
    (hash : Except FileError Bytes → Nat) (load : Unit → Except FileError Bytes)
    (f : Bytes → Option T → Except FileError T) :
    (cell.get_or_init hash load f).cell.accessed = true ∧
    ((cell.get_or_init hash load f).cell.data).isSome = true := by
  obtain ⟨dat, fp, acc⟩ := cell
  cases acc <;> cases dat <;>
    simp only [SlotCell.get_or_init, SlotCell.loadPath] <;>
    first
    | simp
    | (split <;> simp)

/-- C1: on a cell not yet accessed this generation, when the fingerprint of
    the newly loaded result equals the stored fingerprint the stored
    transformed result is returned, the transform is not invoked, and the
    load still happens; when it differs and the load produced bytes, the
    transform runs on the new bytes and the previous successfully-parsed
    value (`none` when the previous result was an error or absent), and its
    result is stored and returned, replacing any prior cached error. -/
theorem C1_get_or_init_fingerprint :
    (∀ (T : Type) (cell : SlotCell T) (hash : Except FileError Bytes → Nat)
        (load : Unit → Except FileError Bytes)
        (f : Bytes → Option T → Except FileError T) (d : Except FileError T),
      cell.accessed = false → cell.data = some d →
      hash (load ()) = cell.fingerprint →
      (cell.get_or_init hash load f).result = d ∧
      (cell.get_or_init hash load f).transformed = false ∧
      (cell.get_or_init hash load f).loaded = true) ∧
    (∀ (T : Type) (cell : SlotCell T) (hash : Except FileError Bytes → Nat)
        (load : Unit → Except FileError Bytes)
        (f : Bytes → Option T → Except FileError T) (bs : Bytes),
      cell.accessed = false → load () = .ok bs →
      hash (load ()) ≠ cell.fingerprint →
      (cell.get_or_init hash load f).result
        = f bs (cell.data.bind Except.toOption) ∧
      (cell.get_or_init hash load f).transformed = true ∧
      (cell.get_or_init hash load f).loaded = true ∧
      (cell.get_or_init hash load f).cell.data
        = some (f bs (cell.data.bind Except.toOption))) := by
  constructor
  · intro T cell hash load f d hacc hdata hfp
    rw [SlotCell.get_or_init_not_accessed cell hash load f hacc]
    obtain ⟨dat, fp, acc⟩ := cell
    simp only at hdata hfp
    subst hdata
    simp [SlotCell.loadPath, hfp]
  · intro T cell hash load f bs hacc hload hfp
    rw [SlotCell.get_or_init_not_accessed cell hash load f hacc]
    obtain ⟨dat, fp, acc⟩ := cell
    simp only at hfp ⊢
    cases dat with
    | none =>
      simp [SlotCell.loadPath, hload, Except.bind, Except.isOk, Except.toBool]
    | some d =>
      simp only [SlotCell.loadPath, Option.some.injEq]
      rw [if_neg (fun h => hfp h.symm)]
      simp [hload, Except.bind, Except.isOk, Except.toBool]

/-- C1 witness: a cell with stored value 7, fingerprint 3 and a hash that
    reproduces 3 returns the stored 7 without transforming; with a stored
    fingerprint 4 it re-transforms to 9 and stores the result. -/
theorem C1_get_or_init_fingerprint_witness :
    ((@SlotCell.get_or_init Nat ⟨some (.ok 7), 3, false⟩ (fun _ => 3)
        (fun _ => .ok [1]) (fun _ _ => .ok 9)).result = .ok 7 ∧
      (@SlotCell.get_or_init Nat ⟨some (.ok 7), 3, false⟩ (fun _ => 3)
        (fun _ => .ok [1]) (fun _ _ => .ok 9)).transformed = false ∧
      (@SlotCell.get_or_init Nat ⟨some (.ok 7), 3, false⟩ (fun _ => 3)
        (fun _ => .ok [1]) (fun _ _ => .ok 9)).loaded = true) ∧
    ((@SlotCell.get_or_init Nat ⟨some (.error .notFound), 4, false⟩ (fun _ => 3)
        (fun _ => .ok [1]) (fun _ _ => .ok 9)).result = .ok 9 ∧
      (@SlotCell.get_or_init Nat ⟨some (.error .notFound), 4, false⟩ (fun _ => 3)
        (fun _ => .ok [1]) (fun _ _ => .ok 9)).cell.data = some (.ok 9)) := by
  constructor
  · exact C1_get_or_init_fingerprint.1 Nat ⟨some (.ok 7), 3, false⟩ (fun _ => 3)
      (fun _ => .ok [1]) (fun _ _ => .ok 9) (.ok 7) rfl rfl rfl
  · have h := C1_get_or_init_fingerprint.2 Nat ⟨some (.error .notFound), 4, false⟩
      (fun _ => 3) (fun _ => .ok [1]) (fun _ _ => .ok 9) [1] rfl rfl (by decide)
    exact ⟨h.1, h.2.2.2⟩

/-- C2: a generation reset marks a cell unaccessed and keeps its data and
    fingerprint; a cell already accessed this generation with data present
    returns the cached result with no load and no transform; consequently a
    second `get_or_init` in the same generation never loads, so at most one
    load per cell happens per generation. -/
theorem C2_reset_and_single_load :
    (∀ (T : Type) (cell : SlotCell T),
      cell.reset.data = cell.data ∧
      cell.reset.fingerprint = cell.fingerprint ∧
      cell.reset.accessed = false) ∧
    (∀ (T : Type) (cell : SlotCell T) (hash : Except FileError Bytes → Nat)
        (load : Unit → Except FileError Bytes)
        (f : Bytes → Option T → Except FileError T) (d : Except FileError T),
      cell.accessed = true → cell.data = some d →
      (cell.get_or_init hash load f).result = d ∧
      (cell.get_or_init hash load f).loaded = false ∧
      (cell.get_or_init hash load f).transformed = false) ∧
    (∀ (T : Type) (cell : SlotCell T)
        (h1 : Except FileError Bytes → Nat) (l1 : Unit → Except FileError Bytes)
        (f1 : Bytes → Option T → Except FileError T)
        (h2 : Except FileError Bytes → Nat) (l2 : Unit → Except FileError Bytes)
        (f2 : Bytes → Option T → Except FileError T),
      (((cell.get_or_init h1 l1 f1).cell).get_or_init h2 l2 f2).loaded = false) := by
  refine ⟨fun T cell => ⟨rfl, rfl, rfl⟩, ?_, ?_⟩
  · intro T cell hash load f d ha hd
    rw [SlotCell.get_or_init_accessed cell hash load f d ha hd]
    exact ⟨rfl, rfl, rfl⟩
  · intro T cell h1 l1 f1 h2 l2 f2
    obtain ⟨hacc, hsome⟩ := SlotCell.get_or_init_post cell h1 l1 f1
    obtain ⟨d, hd⟩ := Option.isSome_iff_exists.mp hsome
    rw [SlotCell.get_or_init_accessed _ h2 l2 f2 d hacc hd]

/-- C2 witness: resetting a populated accessed cell keeps value 7 and
    fingerprint 3; a repeated access on an accessed cell returns 7 without
    loading; two chained calls never load twice. -/
theorem C2_reset_and_single_load_witness :
    ((@SlotCell.reset Nat ⟨some (.ok 7), 3, true⟩).data = some (.ok 7) ∧
      (@SlotCell.reset Nat ⟨some (.ok 7), 3, true⟩).fingerprint = 3 ∧
      (@SlotCell.reset Nat ⟨some (.ok 7), 3, true⟩).accessed = false) ∧
    (@SlotCell.get_or_init Nat ⟨some (.ok 7), 3, true⟩ (fun _ => 5)
      (fun _ => .ok [1]) (fun _ _ => .ok 9)).loaded = false ∧
    (@SlotCell.get_or_init Nat
      (@SlotCell.get_or_init Nat ⟨none, 0, false⟩ (fun _ => 5) (fun _ => .ok [1])
          (fun _ _ => .ok 9)).cell
      (fun _ => 6) (fun _ => .ok [2]) (fun _ _ => .ok 11)).loaded = false := by
  refine ⟨?_, ?_, ?_⟩
  · have h := C2_reset_and_single_load.1 Nat ⟨some (.ok 7), 3, true⟩
    exact h
  · exact (C2_reset_and_single_load.2.1 Nat ⟨some (.ok 7), 3, true⟩ (fun _ => 5)
      (fun _ => .ok [1]) (fun _ _ => .ok 9) (.ok 7) rfl rfl).2.1
  · exact C2_reset_and_single_load.2.2 Nat ⟨none, 0, false⟩ (fun _ => 5)
      (fun _ => .ok [1]) (fun _ _ => .ok 9) (fun _ => 6) (fun _ => .ok [2])
      (fun _ _ => .ok 11)

/-! ## Concrete fixtures for witnesses and counterexamples -/

/-- A concrete world: markup "hello", empty overlay, empty cache, a disk on
    which every read fails with not-found, and trivial collaborator
    functions. -/
def w0 : SystemWorld :=
  { root := "/"
    markup := "hello"
    library := buildLibrary []
    slots := []
    virtual_files := []
    inputs := []
    now := 0
    localOffset := 0
    disk := fun _ => .error FileError.notFound
    hash := fun _ => 0
    byteToLine := fun _ _ => none
    byteToCol := fun _ _ => none }

/-- A concrete one-page document. -/
def doc0 : PagedDocument := ⟨[0]⟩

/-- A concrete context in the Compiled state. -/
def ctx0 : TypstContext := ⟨w0, some doc0⟩

/-- C3 counterexample: `context_append_virtual_file` on a context holding a
    compiled document does not clear the document slot, so the claim that
    every markup or virtual-file mutation (append included) leaves no
    stored compiled document is false. -/
theorem C3_append_keeps_document_counterexample :
    ¬ ((context_append_virtual_file ctx0 "a.typ" "x").document = none) := by
  simp [context_append_virtual_file, ctx0]

/-- C3 (amended): `set_markup`, `set_virtual_file` and `clear_virtual_file`
    leave the context with no stored compiled document;
    `append_virtual_file` leaves the document slot unchanged. -/
theorem C3_mutations_clear_document :
    (∀ (ctx : TypstContext) (markup : String),
      (context_set_markup ctx markup).document = none) ∧
    (∀ (ctx : TypstContext) (path content : String),
      (context_set_virtual_file ctx path content).document = none) ∧
    (∀ (ctx : TypstContext) (path : String),
      (context_clear_virtual_file ctx path).document = none) ∧
    (∀ (ctx : TypstContext) (path chunk : String),
      (context_append_virtual_file ctx path chunk).document = ctx.document) :=
  ⟨fun _ _ => rfl, fun _ _ _ => rfl, fun _ _ => rfl, fun _ _ _ => rfl⟩

/-- C9: `set_input` and `set_inputs` rebuild the library configuration
    dictionary from the full current input-binding set and leave the stored
    compiled document unchanged. -/
theorem C9_inputs_rebuild_and_keep_document :
    (∀ (ctx : TypstContext) (key value : String),
      (context_set_input ctx key value).document = ctx.document ∧
      (context_set_input ctx key value).world.inputs
        = assocInsert ctx.world.inputs key value ∧
      (context_set_input ctx key value).world.library
        = buildLibrary ((context_set_input ctx key value).world.inputs)) ∧
    (∀ (ctx : TypstContext) (inputs : List (String × String)),
      (context_set_inputs ctx inputs).document = ctx.document ∧
      (context_set_inputs ctx inputs).world.inputs = inputs ∧
      (context_set_inputs ctx inputs).world.library = buildLibrary inputs) :=
  ⟨fun _ _ _ => ⟨rfl, rfl, rfl⟩, fun _ _ => ⟨rfl, rfl, rfl⟩⟩

/-- C4 counterexample: in a world whose in-memory markup is "hello" and
    whose overlay and disk are empty, `source` on the main pseudo-file
    returns the markup, but `file` on the very same identity does not
    return the markup bytes — it falls through to the cache/disk path and
    fails with not-found. The raw-bytes fetch therefore does not include
    the main pseudo-file in its precedence. -/
theorem C4_file_main_counterexample :
    SystemWorld.source w0 FileId.main = .ok ⟨FileId.main, "hello"⟩ ∧
    SystemWorld.file w0 FileId.main = .error FileError.notFound ∧
    ¬ (SystemWorld.file w0 FileId.main = .ok (utf8Encode w0.markup)) :=
  ⟨rfl, rfl, fun h => Except.noConfusion h⟩

/-- C4 (amended): `source` resolves in the order main pseudo-file (the
    in-memory markup) → virtual overlay (decoded) → cache/disk; `file`
    resolves virtual overlay (raw bytes) → cache/disk, with no main
    pseudo-file case. -/
theorem C4_lookup_precedence :
    (∀ (w : SystemWorld),
      w.source FileId.main = .ok ⟨FileId.main, w.markup⟩) ∧
    (∀ (w : SystemWorld) (id : FileId) (c : Bytes),
      id ≠ FileId.main →
      assocLookup w.virtual_files id.rootlessPath = some c →
      w.source id = (decode_utf8 c).map fun text => ⟨id, text⟩) ∧
    (∀ (w : SystemWorld) (id : FileId),
      id ≠ FileId.main →
      assocLookup w.virtual_files id.rootlessPath = none →
      w.source id = w.slotSource id) ∧
    (∀ (w : SystemWorld) (id : FileId) (c : Bytes),
      assocLookup w.virtual_files id.rootlessPath = some c →
      w.file id = .ok c) ∧
    (∀ (w : SystemWorld) (id : FileId),
      assocLookup w.virtual_files id.rootlessPath = none →
      w.file id = w.slotFile id) := by
  refine ⟨fun w => rfl, ?_, ?_, ?_, ?_⟩
  · intro w id c hne hvf
    rw [SystemWorld.source, if_neg hne, hvf]
  · intro w id hne hvf
    rw [SystemWorld.source, if_neg hne, hvf]
  · intro w id c hvf
    rw [SystemWorld.file, hvf]
  · intro w id hvf
    rw [SystemWorld.file, hvf]

/-- A world with one overlay entry at "a.typ". -/
def w1 : SystemWorld :=
  { w0 with virtual_files := [("a.typ", utf8Encode "abc")] }

/-- C4 witness: in `w1` the overlay entry shadows the (empty) disk for both
    `source` and `file` of the same identity, and a missing overlay path
    falls through to the cache/disk path. -/
theorem C4_lookup_precedence_witness :
    SystemWorld.source w1 (FileId.file none "a.typ")
      = (decode_utf8 (utf8Encode "abc")).map (fun text =>
          ⟨FileId.file none "a.typ", text⟩) ∧
    SystemWorld.file w1 (FileId.file none "a.typ") = .ok (utf8Encode "abc") ∧
    SystemWorld.file w1 (FileId.file none "b.typ")
      = SystemWorld.slotFile w1 (FileId.file none "b.typ") :=
  ⟨C4_lookup_precedence.2.1 w1 (FileId.file none "a.typ") (utf8Encode "abc")
      (by decide) rfl,
    C4_lookup_precedence.2.2.2.1 w1 (FileId.file none "a.typ") (utf8Encode "abc") rfl,
    C4_lookup_precedence.2.2.2.2 w1 (FileId.file none "b.typ") rfl⟩

/-- C5: a successful compile stores the produced document (replacing any
    prior one) and returns the page count with the compiler's warnings
    mapped in order; a failed compile clears any stored document and
    returns the compiler's diagnostics mapped in order (a plain `map`, so
    never re-sorted), after which any export fails with the
    no-compiled-document precondition error instead of the stale
    diagnostics. -/
theorem C5_compile_stores_or_clears :
    (∀ (compiler : SystemWorld → CompilerOutput) (ctx : TypstContext)
        (doc : PagedDocument),
      (compiler ctx.world.reset).output = .ok doc →
      (context_compile compiler ctx).1
        = .ok ⟨doc.pages.length,
            diagnostics_to_vec (compiler ctx.world.reset).warnings ctx.world.reset⟩ ∧
      (context_compile compiler ctx).2.document = some doc) ∧
    (∀ (compiler : SystemWorld → CompilerOutput) (ctx : TypstContext)
        (errs : List SourceDiagnostic),
      (compiler ctx.world.reset).output = .error errs →
      (context_compile compiler ctx).1
        = .error ⟨diagnostics_to_vec errs ctx.world.reset⟩ ∧
      (context_compile compiler ctx).2.document = none ∧
      (∀ (serialize : PagedDocument → PdfOptions →
            Except (List SourceDiagnostic) Bytes)
          (mkStandards : List PdfStandardNif → Except String (List PdfStandardNif))
          (opts : PdfOptionsNif),
        context_export_pdf serialize mkStandards (context_compile compiler ctx).2 opts
          = .error (simple_error "No compiled document. Call compile() first."))) ∧
    (∀ (diags : List SourceDiagnostic) (w : SystemWorld),
      diagnostics_to_vec diags w = diags.map fun d => diagnostic_to_nif d w) := by
  refine ⟨?_, ?_, fun diags w => rfl⟩
  · intro compiler ctx doc h
    constructor
    · simp only [context_compile, h]
    · simp only [context_compile, h]
  · intro compiler ctx errs h
    refine ⟨?_, ?_, ?_⟩
    · simp only [context_compile, h]
    · simp only [context_compile, h]
    · intro serialize mkStandards opts
      simp only [context_compile, h]
      rfl

/-- A compiler stub that always succeeds with `doc0` and no warnings. -/
def compilerOk : SystemWorld → CompilerOutput := fun _ => ⟨.ok doc0, []⟩

/-- A concrete compiler diagnostic. -/
def diag0 : SourceDiagnostic := ⟨.error, "boom", ⟨none, none⟩, [], []⟩

/-- A compiler stub that always fails with `diag0`. -/
def compilerErr : SystemWorld → CompilerOutput := fun _ => ⟨.error [diag0], []⟩

/-- C5 witness: the success stub stores `doc0` and reports one page with no
    warnings; the failure stub clears the document and a following export
    returns the precondition error. -/
theorem C5_compile_stores_or_clears_witness :
    (context_compile compilerOk ctx0).1 = .ok ⟨1, []⟩ ∧
    (context_compile compilerOk ctx0).2.document = some doc0 ∧
    (context_compile compilerErr ctx0).2.document = none ∧
    context_export_pdf (fun _ _ => .ok []) (fun s => .ok s)
        (context_compile compilerErr ctx0).2 ⟨none, [], none⟩
      = .error (simple_error "No compiled document. Call compile() first.") := by
  have hok := C5_compile_stores_or_clears.1 compilerOk ctx0 doc0 rfl
  have herr := C5_compile_stores_or_clears.2.1 compilerErr ctx0 [diag0] rfl
  exact ⟨hok.1, hok.2, herr.2.1,
    herr.2.2 (fun _ _ => .ok []) (fun s => .ok s) ⟨none, [], none⟩⟩

/-- C7: rendering with no stored document fails with the single
    Error-severity no-span precondition diagnostic; a page index at or past
    the page count fails with a bounds message naming the index and the
    page count; otherwise exactly the requested page is rendered. -/
theorem C7_render_guards :
    (∀ (svg : Nat → String) (w : SystemWorld) (page : Nat),
      context_render_svg svg ⟨w, none⟩ page
        = .error (simple_error "No compiled document. Call compile() first.")) ∧
    (∀ (svg : Nat → String) (w : SystemWorld) (doc : PagedDocument) (page : Nat),
      doc.pages.length ≤ page →
      context_render_svg svg ⟨w, some doc⟩ page
        = .error (simple_error ("Page index " ++ Nat.repr page
            ++ " out of bounds (document has " ++ Nat.repr doc.pages.length
            ++ " pages)"))) ∧
    (∀ (svg : Nat → String) (w : SystemWorld) (doc : PagedDocument) (page : Nat)
        (h : page < doc.pages.length),
      context_render_svg svg ⟨w, some doc⟩ page
        = .ok (svg (doc.pages.get ⟨page, h⟩))) ∧
    (∀ (message : String),
      (simple_error message).diagnostics
        = [⟨SeverityNif.Error, message, none, [], []⟩]) := by
  refine ⟨fun svg w page => rfl, ?_, ?_, fun message => rfl⟩
  · intro svg w doc page h
    simp only [context_render_svg]
    rw [dif_pos h]
  · intro svg w doc page h
    simp only [context_render_svg]
    rw [dif_neg (by omega)]

/-- C7 witness: on the one-page `doc0`, index 5 fails naming index 5 and
    page count 1, and index 0 renders page 0. -/
theorem C7_render_guards_witness :
    context_render_svg (fun n => Nat.repr n) ⟨w0, some doc0⟩ 5
      = .error (simple_error "Page index 5 out of bounds (document has 1 pages)") ∧
    context_render_svg (fun n => Nat.repr n) ⟨w0, some doc0⟩ 0 = .ok "0" := by
  constructor
  · exact C7_render_guards.2.1 (fun n => Nat.repr n) w0 doc0 5 (by decide)
  · have h := C7_render_guards.2.2.1 (fun n => Nat.repr n) w0 doc0 0 (by decide)
    simpa [doc0] using h

/-- C8: a span with no byte range maps to no span record at all (hence no
    position); a span with a range whose file is absent or unresolvable
    through the world maps to the range with absent line/column (never a
    zero or (1,1) position); a span whose file resolves to a source maps to
    a 1-based line/column computed from the byte offset within that exact
    source text. -/
theorem C8_span_position_mapping :
    (∀ (span : Span) (w : SystemWorld),
      span.range = none → span_to_nif span w = none) ∧
    (∀ (span : Span) (w : SystemWorld) (s e : Nat),
      span.range = some (s, e) → span.id = none →
      span_to_nif span w = some ⟨s, e, none, none⟩) ∧
    (∀ (span : Span) (w : SystemWorld) (s e : Nat) (id : FileId)
        (err : FileError),
      span.range = some (s, e) → span.id = some id →
      w.source id = .error err →
      span_to_nif span w = some ⟨s, e, none, none⟩) ∧
    (∀ (span : Span) (w : SystemWorld) (s e : Nat) (id : FileId) (src : Source),
      span.range = some (s, e) → span.id = some id →
      w.source id = .ok src →
      span_to_nif span w = some ⟨s, e,
        (w.byteToLine src.text s).map (fun l => l + 1),
        (w.byteToCol src.text s).map (fun c => c + 1)⟩) := by
  refine ⟨?_, ?_, ?_, ?_⟩
  · intro span w hr
    simp [span_to_nif, hr]
  · intro span w s e hr hid
    simp [span_to_nif, resolve_line_column, hr, hid]
  · intro span w s e id err hr hid hsrc
    simp [span_to_nif, resolve_line_column, hr, hid, hsrc, Except.toOption]
  · intro span w s e id src hr hid hsrc
    simp [span_to_nif, resolve_line_column, hr, hid, hsrc, Except.toOption]

/-- A world with position-resolution collaborators that place every offset
    at 0-based line 0, column 2. -/
def w2 : SystemWorld :=
  { w0 with byteToLine := fun _ _ => some 0, byteToCol := fun _ _ => some 2 }

/-- C8 witness: a ranged span on the resolvable main file gets the 1-based
    position (1, 3); a ranged span on an unresolvable file keeps its range
    with absent line/column. -/
theorem C8_span_position_mapping_witness :
    span_to_nif ⟨some FileId.main, some (2, 5)⟩ w2
      = some ⟨2, 5, some 1, some 3⟩ ∧
    span_to_nif ⟨some (FileId.file none "x.typ"), some (0, 1)⟩ w0
      = some ⟨0, 1, none, none⟩ := by
  constructor
  · have h := C8_span_position_mapping.2.2.2 ⟨some FileId.main, some (2, 5)⟩ w2
      2 5 FileId.main ⟨FileId.main, "hello"⟩ rfl rfl rfl
    simpa using h
  · exact C8_span_position_mapping.2.2.1 ⟨some (FileId.file none "x.typ"), some (0, 1)⟩
      w0 0 1 (FileId.file none "x.typ") FileError.notFound rfl rfl rfl

/-- C10: `today` is total over every integer hour offset — every failing
    conversion (offset outside `i32`, hour→second overflow, invalid fixed
    offset, i.e. any offset outside the open interval (-24, 24)) yields
    `none`; offsets inside (-24, 24) yield the calendar date of the single
    per-compile clock snapshot shifted by the whole-hour offset, and the
    no-offset query uses the local timezone of the same snapshot. -/
theorem C10_today_totality :
    (∀ (w : SystemWorld) (hours : Int),
      hours < -(2 ^ 31) ∨ 2 ^ 31 - 1 < hours →
      w.today (some hours) = none) ∧
    (∀ (w : SystemWorld) (hours : Int),
      hours ≤ -24 ∨ 24 ≤ hours →
      w.today (some hours) = none) ∧
    (∀ (w : SystemWorld) (hours : Int),
      -24 < hours → hours < 24 →
      w.today (some hours) = calendarDate (w.now + hours * 3600)) ∧
    (∀ (w : SystemWorld),
      w.today none = calendarDate (w.now + w.localOffset)) := by
  refine ⟨?_, ?_, ?_, fun w => rfl⟩
  · intro w hours h
    simp only [SystemWorld.today]
    rw [if_pos h]
  · intro w hours h
    simp only [SystemWorld.today]
    split
    · rfl
    split
    · rfl
    split
    · rfl
    exfalso
    omega
  · intro w hours h1 h2
    simp only [SystemWorld.today]
    split
    · exfalso; omega
    split
    · exfalso; omega
    split
    · exfalso; omega
    rfl

/-- C10 witness: offset 25 is rejected; offset 0 yields the epoch date of
    the snapshot (1970-01-01 for `w0`). -/
theorem C10_today_totality_witness :
    SystemWorld.today w0 (some 25) = none ∧
    SystemWorld.today w0 (some 0) = some ⟨1970, 1, 1⟩ := by
  constructor
  · exact C10_today_totality.2.1 w0 25 (Or.inr (by decide))
  · rw [C10_today_totality.2.2.1 w0 0 (by decide) (by decide)]
    rfl

/-- C6: the selector parser splits on commas and processes the trimmed
    tokens in input order with no merging, sorting or de-duplication,
    failing immediately (no partial result) with an error naming the
    offending token; a bare-integer token `N` is accepted exactly when
    `1 ≤ N ≤ total`, yielding `[N, N]`, and a range token `N-M` exactly
    when `1 ≤ N ≤ total`, `1 ≤ M ≤ total` and `N ≤ M`, yielding `[N, M]`;
    in particular `"1-3,5,7-9"` against 10 pages yields
    `[[1,3],[5,5],[7,9]]` while `"0-2"`, `"5-3"` and `"11"` fail. -/
theorem C6_parse_page_ranges_spec :
    (parse_page_ranges "1-3,5,7-9" 10 = .ok [(1, 3), (5, 5), (7, 9)]) ∧
    (parse_page_ranges "0-2" 10 = .error "Page range out of bounds: 0-2") ∧
    (parse_page_ranges "5-3" 10 = .error "Page range out of bounds: 5-3") ∧
    (parse_page_ranges "11" 10 = .error "Page number out of bounds: 11") ∧
    (∀ (s : String) (total : Nat),
      parse_page_ranges s total = parsePartsLoop total (strSplit s ',')) ∧
    (∀ (total : Nat) (p : String) (rest : List String) (e : String),
      parseToken p total = .error e →
      parsePartsLoop total (p :: rest) = .error e) ∧
    (∀ (total : Nat) (p : String) (rest : List String) (r : Nat × Nat)
        (rs : List (Nat × Nat)),
      parseToken p total = .ok r → parsePartsLoop total rest = .ok rs →
      parsePartsLoop total (p :: rest) = .ok (r :: rs)) ∧
    (∀ (t : String) (total N : Nat),
      strContainsChar (strTrim t) '-' = false →
      parseUsize (strTrim t) = some N →
      (parseToken t total = .ok (N, N) ↔ 1 ≤ N ∧ N ≤ total)) ∧
    (∀ (t a b : String) (total N M : Nat),
      strContainsChar (strTrim t) '-' = true →
      splitFirstDash (strTrim t) = (a, b) →
      parseUsize (strTrim a) = some N →
      parseUsize (strTrim b) = some M →
      (parseToken t total = .ok (N, M) ↔
        1 ≤ N ∧ N ≤ total ∧ 1 ≤ M ∧ M ≤ total ∧ N ≤ M)) := by
  refine ⟨rfl, rfl, rfl, rfl, fun s total => rfl, ?_, ?_, ?_, ?_⟩
  · intro total p rest e h
    simp only [parsePartsLoop, h]
  · intro total p rest r rs h hrest
    simp only [parsePartsLoop, h, hrest]
  · intro t total N hcont hparse
    simp only [parseToken, hcont, Bool.false_eq_true, if_false, hparse]
    constructor
    · intro heq
      by_cases hb : N < 1 ∨ N > total
      · rw [if_pos hb] at heq
        exact Except.noConfusion heq
      · omega
    · intro hc
      rw [if_neg (by omega)]
  · intro t a b total N M hcont hsplit hA hB
    simp only [parseToken, hcont, if_true, hsplit, hA, hB]
    constructor
    · intro heq
      by_cases hb : N < 1 ∨ M < 1 ∨ N > total ∨ M > total ∨ N > M
      · rw [if_pos hb] at heq
        exact Except.noConfusion heq
      · omega
    · intro hc
      rw [if_neg (by omega)]

/-- C6 witness: the bare token "5" and the whitespace-padded range token
    " 7 - 9 " are both accepted against 10 pages with their claimed
    values. -/
theorem C6_parse_page_ranges_spec_witness :
    parseToken "5" 10 = .ok (5, 5) ∧ parseToken " 7 - 9 " 10 = .ok (7, 9) :=
  ⟨(C6_parse_page_ranges_spec.2.2.2.2.2.2.2.1 "5" 10 5 rfl rfl).mpr (by omega),
    (C6_parse_page_ranges_spec.2.2.2.2.2.2.2.2 " 7 - 9 " "7 " " 9" 10 7 9
      rfl rfl rfl rfl).mpr (by omega)⟩
